import Mathlib

/-!
Verification of the portfolio-hub single-page application (src/main.js).

The client-side router (class SPARouter), the loading-screen text sequencer
(class LoadingScreen), the testimonial carousel, and the contact-form
validator are embedded as pure Lean functions over explicit state records.
DOM class toggling is modelled by fields of the state records: the list of
route names whose page container carries the CSS class active, the pushed
browser-history entries, the document title, and so on.
-/

namespace PortfolioHub

/-- The route names registered by SPARouter.init (src/main.js lines 77-83).
Each maps to a distinct page container element (home-page, about-page, ...);
we model the container of a route by the route name itself. -/
def registeredRoutes : List String :=
  ["home", "about", "skills", "projects", "blog", "education", "contact"]

/-- The static route-to-title table of SPARouter.updatePageTitle
(src/main.js lines 243-254); unknown routes fall back to the home title. -/
def pageTitle (route : String) : String :=
  if route == "home" then "Divyanshu Pandey - Professional Portfolio"
  else if route == "about" then "About - Divyanshu Pandey"
  else if route == "skills" then "Skills - Divyanshu Pandey"
  else if route == "projects" then "Projects - Divyanshu Pandey"
  else if route == "blog" then "Blog - Divyanshu Pandey"
  else if route == "education" then "Education - Divyanshu Pandey"
  else if route == "contact" then "Contact - Divyanshu Pandey"
  else "Divyanshu Pandey - Professional Portfolio"

/-- Observable state of the SPARouter plus the DOM slices it mutates.
active holds the registered route names whose page container currently
carries the CSS class active; history holds the route names pushed via
history.pushState, most recent first; navActive is the data-route name
highlighted by updateNavigation; warnings collects the route names for
which console.warn fired in performRouteTransition. -/
structure RouterState where
  active : List String
  currentRoute : String
  isLoading : Bool
  history : List String
  title : String
  navActive : String
  scrolledTop : Bool
  mobileMenuOpen : Bool
  warnings : List String
deriving Repr, DecidableEq

/-- The registered-route branch of performRouteTransition (src/main.js
lines 196-208): add the active class to the target container, set
currentRoute, optionally push a history entry, update navigation
highlighting, close the mobile menu, scroll to top, update the title. -/
def activateRegistered (route : String) (pushState : Bool) (s : RouterState) :
    RouterState :=
  { s with
    active := s.active ++ [route]
    currentRoute := route
    history := if pushState then route :: s.history else s.history
    navActive := route
    mobileMenuOpen := false
    scrolledTop := true
    title := pageTitle route }

/-- SPARouter.performRouteTransition (src/main.js lines 189-213).
First the active class is removed from every registered container; then a
registered target is activated, while an unknown target fires console.warn
and falls back to loadRoute of home with pushState = true and no loader.
Since home is registered, that re-entrant call clears the containers again
and activates home, which is what the else branch below spells out. -/
def performRouteTransition (route : String) (pushState : Bool)
    (s : RouterState) : RouterState :=
  let cleared := { s with active := [] }
  if registeredRoutes.contains route then
    activateRegistered route pushState cleared
  else
    activateRegistered "home" true
      { cleared with active := [], warnings := cleared.warnings ++ [route] }

/-- SPARouter.loadRoute (src/main.js lines 172-182), modelled at quiescence:
with showLoading the source sets isLoading via showLoader, performs the
transition after a 100ms timer, and hideLoader clears isLoading once its
3000ms + 500ms timers have elapsed; the state after all timers have fired
is the transition result with isLoading back to false. -/
def loadRoute (route : String) (pushState showLoading : Bool)
    (s : RouterState) : RouterState :=
  if showLoading then
    let s1 := performRouteTransition route pushState { s with isLoading := true }
    { s1 with isLoading := false }
  else
    performRouteTransition route pushState s

/-- SPARouter.navigateTo (src/main.js lines 126-134): a registered route
that is not current, while not loading, is loaded with pushState and the
loader; the current route only scrolls to top and closes the mobile menu;
anything else does nothing. -/
def navigateTo (route : String) (s : RouterState) : RouterState :=
  if registeredRoutes.contains route && !s.isLoading
      && s.currentRoute != route then
    loadRoute route true true s
  else if s.currentRoute == route then
    { s with scrolledTop := true, mobileMenuOpen := false }
  else
    s

/-- The popstate listener (src/main.js lines 116-119): the route is read
from the event state, defaulting to home when absent, and loaded without
pushing history and without the loader. -/
def handlePopstate (st : Option String) (s : RouterState) : RouterState :=
  loadRoute (st.getD "home") false false s

/-- Initial-route resolution in SPARouter.init (src/main.js lines 88-89):
the location hash selects the route when registered, otherwise the
constructor default currentRoute (home) is loaded; no push, no loader. -/
def loadInitialRoute (hash : String) (s : RouterState) : RouterState :=
  loadRoute (if registeredRoutes.contains hash then hash else s.currentRoute)
    false false s

/-- Router state as built by the SPARouter constructor (src/main.js lines
68-73) before loadRoute runs: no container active yet, currentRoute home,
not loading, nothing pushed. -/
def initialRouterState : RouterState :=
  { active := []
    currentRoute := "home"
    isLoading := false
    history := []
    title := ""
    navActive := ""
    scrolledTop := false
    mobileMenuOpen := false
    warnings := [] }

/-- A quiesced post-initial-load state sitting on the about page; used to
instantiate the universally quantified router theorems. -/
def sampleAboutState : RouterState :=
  { active := ["about"]
    currentRoute := "about"
    isLoading := false
    history := []
    title := pageTitle "about"
    navActive := "about"
    scrolledTop := true
    mobileMenuOpen := false
    warnings := [] }

/-- The fixed ordered loading texts of class LoadingScreen (src/main.js
lines 389-395). -/
def loadingTexts : List String :=
  ["Loading Portfolio...",
   "Initializing Components...",
   "Setting up Navigation...",
   "Finalizing Experience...",
   "Ready!"]

/-- State of the 600ms text interval of animateLoadingText: the source's
currentTextIndex, the texts displayed so far in order, and whether
clearInterval has fired (after which the interval never ticks again). -/
structure LoaderTextState where
  currentTextIndex : Nat
  shown : List String
  stopped : Bool
deriving Repr, DecidableEq

/-- One 600ms tick of the interval installed by animateLoadingText
(src/main.js lines 407-417): while currentTextIndex is below
loadingTexts.length - 1 the text at currentTextIndex is displayed and the
index incremented; otherwise the interval is cleared. -/
def textTick (s : LoaderTextState) : LoaderTextState :=
  if s.stopped then s
  else if s.currentTextIndex < loadingTexts.length - 1 then
    { s with
      shown := s.shown ++ [loadingTexts.getD s.currentTextIndex ""]
      currentTextIndex := s.currentTextIndex + 1 }
  else
    { s with stopped := true }

/-- The interval starts at currentTextIndex 0 with nothing displayed
(src/main.js line 396). -/
def initLoaderText : LoaderTextState :=
  { currentTextIndex := 0, shown := [], stopped := false }

/-- One automatic advance of the testimonials carousel (src/main.js lines
634-638): currentSlide becomes (currentSlide + 1) % slides.length,
wrapping from the last slide to the first. -/
def slideAdvance (slideCount cur : Nat) : Nat :=
  (cur + 1) % slideCount

/-- Characters admitted by the regex character class matching no
whitespace and no at sign. -/
def okChar (c : Char) : Bool := !c.isWhitespace && c != '@'

/-- The email validator's anchored regex test (src/main.js line 660) as an
executable matcher: the characters before the first at sign form the
local part, which must be non-empty with no whitespace; the rest must be
an at sign followed by a domain with no whitespace and no further at
sign, containing a dot that is neither its first nor its last character. -/
def emailTest (s : String) : Bool :=
  let l := s.toList
  let localPart := l.takeWhile (fun c => c != '@')
  match l.dropWhile (fun c => c != '@') with
  | '@' :: domain =>
      !localPart.isEmpty && localPart.all okChar && domain.all okChar &&
        ((domain.drop 1).dropLast.contains '.')
  | _ => false

/-- Declarative semantics of an anchored match of the email regex of
src/main.js line 660: the character sequence splits into three non-empty
pieces, around one at sign and a later dot, every piece free of
whitespace and at signs. -/
def emailRegexMatches (s : String) : Prop :=
  ∃ a b c : List Char,
    s.toList = a ++ '@' :: (b ++ '.' :: c) ∧
    a ≠ [] ∧ b ≠ [] ∧ c ≠ [] ∧
    (∀ ch ∈ a, okChar ch = true) ∧
    (∀ ch ∈ b, okChar ch = true) ∧
    (∀ ch ∈ c, okChar ch = true)

/-- The trim applied by validateInput (src/main.js line 666): strip
leading and trailing whitespace, embedded as an executable list
operation. -/
def jsTrim (s : String) : String :=
  String.mk
    (((s.toList.dropWhile Char.isWhitespace).reverse.dropWhile
        Char.isWhitespace).reverse)

/-- The four contact-form fields in the DOM order of the inputs table
(src/main.js lines 658-663). -/
inductive FieldId where
  | name
  | email
  | subject
  | message
deriving Repr, DecidableEq

/-- Raw values of the four contact-form inputs. -/
structure ContactForm where
  contactName : String
  contactEmail : String
  contactSubject : String
  contactMessage : String
deriving Repr, DecidableEq

/-- The raw value of a field. -/
def fieldValue (f : ContactForm) : FieldId → String
  | .name => f.contactName
  | .email => f.contactEmail
  | .subject => f.contactSubject
  | .message => f.contactMessage

/-- The per-field validate predicates of the inputs table (src/main.js
lines 659-662): non-empty for name, subject and message, the regex test
for email. -/
def fieldValidate : FieldId → String → Bool
  | .name, v => decide (v.length > 0)
  | .email, v => emailTest v
  | .subject, v => decide (v.length > 0)
  | .message, v => decide (v.length > 0)

/-- validateInput (src/main.js lines 665-679): the field predicate applied
to the trimmed input value. -/
def validateInput (f : ContactForm) (id : FieldId) : Bool :=
  fieldValidate id (jsTrim (fieldValue f id))

/-- The inputs table order (src/main.js lines 658-663). -/
def formFields : List FieldId :=
  [FieldId.name, FieldId.email, FieldId.subject, FieldId.message]

/-- The allValid flag computed in the submit handler (src/main.js lines
691-700): every field passes its predicate. -/
def allValid (f : ContactForm) : Bool :=
  formFields.all (validateInput f)

/-- The first invalid field in DOM order, the target of the
querySelector focus call on block (src/main.js lines 757-758). -/
def firstInvalid (f : ContactForm) : Option FieldId :=
  formFields.find? (fun id => !(validateInput f id))

/-- Observable outcome of one run of the submit listener (src/main.js
lines 689-760): whether preventDefault fired, whether the simulated
submission was started, the notifications shown as message-type pairs,
whether contactForm.reset cleared the fields, whether the submit button
was re-enabled and restored, and which field received focus. -/
structure SubmitResult where
  prevented : Bool
  submissionStarted : Bool
  notifications : List (String × String)
  formCleared : Bool
  buttonRestored : Bool
  focused : Option FieldId
deriving Repr, DecidableEq

/-- The submit listener (src/main.js lines 689-760). preventDefault always
fires first. With every predicate passing, the simulated submission runs;
its success path shows the success notification and resets the form, its
catch path (the simulated operation threw) shows the failure notification
and leaves the fields untouched, and the finally block restores the
button either way. With any predicate failing, nothing is started, the
generic error notification is shown and the first invalid field receives
focus. -/
def handleSubmit (f : ContactForm) (submitThrows : Bool) : SubmitResult :=
  if allValid f then
    if submitThrows then
      { prevented := true
        submissionStarted := true
        notifications := [("Failed to send message. Please try again.", "error")]
        formCleared := false
        buttonRestored := true
        focused := none }
    else
      { prevented := true
        submissionStarted := true
        notifications := [("Message sent successfully!", "success")]
        formCleared := true
        buttonRestored := true
        focused := none }
  else
    { prevented := true
      submissionStarted := false
      notifications := [("Please correct the errors in the form.", "error")]
      formCleared := false
      buttonRestored := false
      focused := firstInvalid f }

/-- An entirely empty contact form. -/
def sampleEmptyForm : ContactForm :=
  { contactName := ""
    contactEmail := ""
    contactSubject := ""
    contactMessage := "" }

/-- A contact form on which all four predicates pass. -/
def sampleValidForm : ContactForm :=
  { contactName := "Ada Lovelace"
    contactEmail := "a@b.co"
    contactSubject := "Hello"
    contactMessage := "A message" }

/-- C1: for every registered route r, after performRouteTransition to r,
exactly one page container carries the active marker, namely r's container,
and every other registered route's container is inactive. -/
theorem spec_C1_route_transition_exactly_one_active (route : String)
    (p : Bool) (s : RouterState) (h : route ∈ registeredRoutes) :
    (performRouteTransition route p s).active = [route] ∧
    ∀ q ∈ registeredRoutes,
      (q ∈ (performRouteTransition route p s).active ↔ q = route) := by
  unfold performRouteTransition activateRegistered
  simp [h]

/-- Witness for C1 at the registered route about from a concrete state. -/
theorem spec_C1_witness :
    "about" ∈ registeredRoutes ∧
    ((performRouteTransition "about" true sampleAboutState).active = ["about"] ∧
     ∀ q ∈ registeredRoutes,
       (q ∈ (performRouteTransition "about" true sampleAboutState).active ↔
         q = "about")) :=
  ⟨by decide,
   spec_C1_route_transition_exactly_one_active "about" true sampleAboutState
     (by decide)⟩

/-- C2 as stated is false: navigateTo of an unregistered route name that is
not the current route takes neither branch of navigateTo and is a complete
no-op, so the home route does not become active. Concretely, from the about
page, navigateTo of the unknown name bogus leaves about active. -/
theorem spec_C2_counterexample :
    ("bogus" ∉ registeredRoutes) ∧
    sampleAboutState.currentRoute = "about" ∧
    sampleAboutState.isLoading = false ∧
    navigateTo "bogus" sampleAboutState = sampleAboutState ∧
    "home" ∉ (navigateTo "bogus" sampleAboutState).active ∧
    (navigateTo "bogus" sampleAboutState).active = ["about"] := by
  decide

/-- C2 amended: an unknown route name reaching performRouteTransition (as a
popstate does) falls back to the home route, appending exactly one console
warning; the initial-hash resolution likewise lands on home for an unknown
hash. navigateTo itself silently ignores unknown route names. -/
theorem spec_C2_unknown_route_fallback (u : String) (p : Bool)
    (s : RouterState) (h : u ∉ registeredRoutes) :
    (performRouteTransition u p s).active = ["home"] ∧
    (performRouteTransition u p s).currentRoute = "home" ∧
    (performRouteTransition u p s).warnings = s.warnings ++ [u] ∧
    (handlePopstate (some u) s).active = ["home"] ∧
    (loadInitialRoute u initialRouterState).active = ["home"] := by
  have hm : "home" ∈ registeredRoutes := by decide
  unfold handlePopstate loadInitialRoute loadRoute performRouteTransition
    activateRegistered
  simp [h, hm, initialRouterState]

/-- Witness for the amended C2 at the unknown route bogus. -/
theorem spec_C2_witness :
    ("bogus" ∉ registeredRoutes) ∧
    ((performRouteTransition "bogus" false sampleAboutState).active = ["home"] ∧
     (performRouteTransition "bogus" false sampleAboutState).currentRoute
       = "home" ∧
     (performRouteTransition "bogus" false sampleAboutState).warnings
       = sampleAboutState.warnings ++ ["bogus"] ∧
     (handlePopstate (some "bogus") sampleAboutState).active = ["home"] ∧
     (loadInitialRoute "bogus" initialRouterState).active = ["home"]) :=
  ⟨by decide,
   spec_C2_unknown_route_fallback "bogus" false sampleAboutState (by decide)⟩

/-- C7: a popstate signal carrying a registered route, or none, triggers
exactly the activation logic of performRouteTransition with pushState
false, so the browser history is unchanged; absent route information it
defaults to home. The last conjunct shows every entry performRouteTransition
ever pushes is a registered route name, so popstate event states are
covered by the hypothesis. -/
theorem spec_C7_popstate_no_history_push (st : Option String)
    (s : RouterState)
    (h : st = none ∨ ∃ r, st = some r ∧ r ∈ registeredRoutes) :
    (handlePopstate st s).history = s.history ∧
    handlePopstate st s = performRouteTransition (st.getD "home") false s ∧
    (∀ route p s2 r, r ∈ (performRouteTransition route p s2).history →
      r ∈ registeredRoutes ∨ r ∈ s2.history) := by
  refine ⟨?_, rfl, ?_⟩
  · rcases h with h | ⟨r, rfl, hr⟩
    · subst h
      show (performRouteTransition "home" false s).history = s.history
      unfold performRouteTransition activateRegistered
      simp [registeredRoutes]
    · show (performRouteTransition r false s).history = s.history
      unfold performRouteTransition activateRegistered
      simp [hr]
  · intro route p s2 r hmem
    unfold performRouteTransition activateRegistered at hmem
    by_cases hz : route ∈ registeredRoutes
    · by_cases hp : p = true
      · simp [hz, hp] at hmem
        rcases hmem with rfl | hmem
        · left; exact hz
        · right; exact hmem
      · simp [hz, hp] at hmem
        right; exact hmem
    · simp [hz] at hmem
      rcases hmem with rfl | hmem
      · left; simp [registeredRoutes]
      · right; exact hmem

/-- Witness for C7 at a popstate carrying the registered route about. -/
theorem spec_C7_witness :
    ((handlePopstate (some "about") sampleAboutState).history
      = sampleAboutState.history ∧
     handlePopstate (some "about") sampleAboutState
      = performRouteTransition ((some "about").getD "home") false
          sampleAboutState ∧
     (∀ route p s2 r, r ∈ (performRouteTransition route p s2).history →
       r ∈ registeredRoutes ∨ r ∈ s2.history)) :=
  spec_C7_popstate_no_history_push (some "about") sampleAboutState
    (Or.inr ⟨"about", rfl, by decide⟩)

/-- C8: navigateTo of the currently active route only scrolls to top and
closes the mobile menu; it pushes no history entry and leaves the active
container and currentRoute unchanged. -/
theorem spec_C8_navigate_current_route_no_push (route : String)
    (s : RouterState) (h : s.currentRoute = route) :
    navigateTo route s
      = { s with scrolledTop := true, mobileMenuOpen := false } ∧
    (navigateTo route s).history = s.history ∧
    (navigateTo route s).active = s.active ∧
    (navigateTo route s).currentRoute = s.currentRoute := by
  have he : navigateTo route s
      = { s with scrolledTop := true, mobileMenuOpen := false } := by
    subst h
    unfold navigateTo
    simp
  exact ⟨he, by rw [he], by rw [he], by rw [he]⟩

/-- Witness for C8: re-navigating to about from the about page. -/
theorem spec_C8_witness :
    (sampleAboutState.currentRoute = "about") ∧
    (navigateTo "about" sampleAboutState
      = { sampleAboutState with scrolledTop := true, mobileMenuOpen := false } ∧
     (navigateTo "about" sampleAboutState).history = sampleAboutState.history ∧
     (navigateTo "about" sampleAboutState).active = sampleAboutState.active ∧
     (navigateTo "about" sampleAboutState).currentRoute
       = sampleAboutState.currentRoute) :=
  ⟨rfl, spec_C8_navigate_current_route_no_push "about" sampleAboutState rfl⟩

/-- C10: navigateTo of an unregistered route name that differs from the
current route, while no transition is in progress, is a complete no-op:
the whole router state, container markers, history, title and navigation
highlighting included, is returned unchanged. -/
theorem spec_C10_navigate_unknown_noop (u : String) (s : RouterState)
    (h1 : u ∉ registeredRoutes) (h2 : s.currentRoute ≠ u)
    (h3 : s.isLoading = false) :
    navigateTo u s = s := by
  unfold navigateTo
  simp [h1, h2, h3]

/-- Witness for C10 at the unknown route bogus from the about page. -/
theorem spec_C10_witness :
    ("bogus" ∉ registeredRoutes) ∧
    sampleAboutState.currentRoute ≠ "bogus" ∧
    sampleAboutState.isLoading = false ∧
    navigateTo "bogus" sampleAboutState = sampleAboutState :=
  ⟨by decide, by decide, rfl,
   spec_C10_navigate_unknown_noop "bogus" sampleAboutState (by decide)
     (by decide) rfl⟩

/-- C5 as stated is false: the guard currentTextIndex < length - 1 stops
the interval on the fifth tick without ever displaying the final entry
Ready!, so not every entry of the list is displayed. After ten ticks the
interval has stopped, Ready! was never shown, and the state is a fixed
point of further ticks. -/
theorem spec_C5_counterexample :
    "Ready!" ∈ loadingTexts ∧
    (textTick^[10] initLoaderText).stopped = true ∧
    "Ready!" ∉ (textTick^[10] initLoaderText).shown ∧
    textTick (textTick^[10] initLoaderText) = textTick^[10] initLoaderText := by
  decide

/-- C5 amended: the text timer displays the first four entries of the
five-entry list each exactly once, in order, advancing every 600ms, and
the interval stops on the fifth tick without ever displaying the final
entry Ready!. -/
theorem spec_C5_text_timer_first_four (n : Nat) (h : 5 ≤ n) :
    textTick^[n] initLoaderText
      = { currentTextIndex := 4, shown := loadingTexts.take 4,
          stopped := true } ∧
    (∀ t ∈ loadingTexts.take 4, (loadingTexts.take 4).count t = 1) ∧
    "Ready!" ∉ loadingTexts.take 4 ∧
    (textTick^[4] initLoaderText).shown = loadingTexts.take 4 := by
  refine ⟨?_, by decide, by decide, by decide⟩
  obtain ⟨m, rfl⟩ : ∃ m, n = 5 + m := ⟨n - 5, by omega⟩
  induction m with
  | zero => decide
  | succ k ih =>
      have hs : 5 + (k + 1) = (5 + k) + 1 := by omega
      rw [hs, Function.iterate_succ_apply', ih (by omega)]
      decide

/-- Witness for the amended C5 after seven ticks. -/
theorem spec_C5_witness :
    5 ≤ 7 ∧
    (textTick^[7] initLoaderText
      = { currentTextIndex := 4, shown := loadingTexts.take 4,
          stopped := true } ∧
     (∀ t ∈ loadingTexts.take 4, (loadingTexts.take 4).count t = 1) ∧
     "Ready!" ∉ loadingTexts.take 4 ∧
     (textTick^[4] initLoaderText).shown = loadingTexts.take 4) :=
  ⟨by decide, spec_C5_text_timer_first_four 7 (by decide)⟩

/-- C6: starting from slide 0, after n automatic advances the carousel's
active slide index equals n mod slideCount. -/
theorem spec_C6_carousel_index (n slideCount : Nat) (h : 0 < slideCount) :
    (slideAdvance slideCount)^[n] 0 = n % slideCount := by
  induction n with
  | zero => simp
  | succ k ih =>
      rw [Function.iterate_succ_apply', ih]
      unfold slideAdvance
      rw [Nat.mod_add_mod]

/-- Witness for C6 with three slides and seven advances. -/
theorem spec_C6_witness :
    0 < 3 ∧ (slideAdvance 3)^[7] 0 = 7 % 3 :=
  ⟨by decide, spec_C6_carousel_index 7 3 (by decide)⟩

/-- Splitting takeWhile and dropWhile at the first element failing the
predicate. -/
theorem takeWhile_dropWhile_split (p : Char → Bool) (a : List Char) (x : Char)
    (r : List Char) (ha : ∀ y ∈ a, p y = true) (hx : p x = false) :
    (a ++ x :: r).takeWhile p = a ∧ (a ++ x :: r).dropWhile p = x :: r := by
  induction a with
  | nil => simp [List.takeWhile_cons, List.dropWhile_cons, hx]
  | cons y ys ih =>
      have hy : p y = true := ha y (by simp)
      have hih := ih (fun z hz => ha z (by simp [hz]))
      simp [List.takeWhile_cons, List.dropWhile_cons, hy, hih.1, hih.2]

/-- The executable matcher emailTest decides exactly the declarative
anchored-match semantics of the email regex. -/
theorem emailTest_iff (s : String) :
    emailTest s = true ↔ emailRegexMatches s := by
  constructor
  · intro h
    simp only [emailTest] at h
    split at h
    next domain heq =>
      simp only [Bool.and_eq_true] at h
      obtain ⟨⟨⟨hne, hallLocal⟩, hallDom⟩, hdot⟩ := h
      set lp := List.takeWhile (fun c : Char => c != '@') s.toList with hlp
      have hl : s.toList = lp ++ '@' :: domain := by
        conv_lhs => rw [← List.takeWhile_append_dropWhile
          (p := fun c : Char => c != '@') (l := s.toList)]
        rw [heq]
      have hane : lp ≠ [] := by
        intro hnil
        rw [hnil] at hne
        simp at hne
      have hdotmem : '.' ∈ (List.drop 1 domain).dropLast := by
        simpa using hdot
      cases domain with
      | nil => simp at hdotmem
      | cons d0 t =>
          simp only [List.drop_succ_cons, List.drop_zero] at hdotmem
          have ht : t ≠ [] := by
            rintro rfl
            simp at hdotmem
          obtain ⟨l1, l2, hsplit⟩ := List.append_of_mem hdotmem
          have ht2 : t = (l1 ++ '.' :: l2) ++ [t.getLast ht] := by
            conv_lhs => rw [← List.dropLast_append_getLast ht]
            rw [hsplit]
          refine ⟨lp, d0 :: l1,
            l2 ++ [t.getLast ht], ?_, hane, by simp, by simp, ?_, ?_, ?_⟩
          · rw [hl]
            have hre : d0 :: l1 ++ '.' :: (l2 ++ [t.getLast ht]) = d0 :: t := by
              conv_rhs => rw [ht2]
              simp
            rw [hre]
          · intro ch hch
            exact List.all_eq_true.mp hallLocal ch hch
          · intro ch hch
            have hmem : ch ∈ d0 :: t := by
              rcases List.mem_cons.mp hch with rfl | hch2
              · exact List.mem_cons_self _ _
              · apply List.mem_cons_of_mem
                rw [ht2]
                simp [hch2]
            exact List.all_eq_true.mp hallDom ch hmem
          · intro ch hch
            have hmem : ch ∈ d0 :: t := by
              apply List.mem_cons_of_mem
              rw [ht2]
              rcases List.mem_append.mp hch with hch2 | hch2
              · simp [hch2]
              · simp only [List.mem_singleton] at hch2
                subst hch2
                simp
            exact List.all_eq_true.mp hallDom ch hmem
    next => exact absurd h (by simp)
  · rintro ⟨a, b, c, hl, ha, hb, hc, oa, ob, oc⟩
    simp only [emailTest]
    have hpa : ∀ y ∈ a, ((fun ch : Char => ch != '@') y) = true := by
      intro y hy
      have hok := oa y hy
      simp only [okChar, Bool.and_eq_true] at hok
      exact hok.2
    have hpx : ((fun ch : Char => ch != '@') '@') = false := by simp
    obtain ⟨htw, hdw⟩ :=
      takeWhile_dropWhile_split (fun ch : Char => ch != '@') a '@'
        (b ++ '.' :: c) hpa hpx
    rw [hl, hdw, htw]
    have h1 : a.isEmpty = false := by
      cases a with
      | nil => exact absurd rfl ha
      | cons x xs => rfl
    have h2 : a.all okChar = true := List.all_eq_true.mpr oa
    have h3 : (b ++ '.' :: c).all okChar = true := by
      apply List.all_eq_true.mpr
      intro x hx
      rcases List.mem_append.mp hx with hx2 | hx2
      · exact ob x hx2
      · rcases List.mem_cons.mp hx2 with rfl | hx3
        · decide
        · exact oc x hx3
    have h4 : '.' ∈ (b ++ '.' :: c).tail.dropLast := by
      obtain ⟨b0, b', rfl⟩ := List.exists_cons_of_ne_nil hb
      have hkey : (b' ++ '.' :: c).dropLast = b' ++ '.' :: c.dropLast := by
        conv_lhs => rw [← List.dropLast_append_getLast hc]
        rw [show b' ++ '.' :: (c.dropLast ++ [c.getLast hc])
              = (b' ++ '.' :: c.dropLast) ++ [c.getLast hc] by simp,
            List.dropLast_concat]
      rw [List.cons_append, List.tail_cons, hkey]
      simp
    simp [h1, h2, h3, h4]

/-- C3: the email field predicate is exactly the anchored regex test
applied to the trimmed value; it accepts a\x40b.co and rejects a\x40b, the
empty string, and a b\x40c.com. -/
theorem spec_C3_email_predicate_is_regex :
    (∀ f : ContactForm,
      validateInput f FieldId.email = emailTest (jsTrim f.contactEmail)) ∧
    (∀ v : String, emailTest v = true ↔ emailRegexMatches v) ∧
    validateInput { sampleEmptyForm with contactEmail := "a@b.co" }
      FieldId.email = true ∧
    validateInput { sampleEmptyForm with contactEmail := "a@b" }
      FieldId.email = false ∧
    validateInput { sampleEmptyForm with contactEmail := "" }
      FieldId.email = false ∧
    validateInput { sampleEmptyForm with contactEmail := "a b@c.com" }
      FieldId.email = false :=
  ⟨fun _ => rfl, emailTest_iff, by decide, by decide, by decide, by decide⟩

/-- C4: whenever some field predicate fails, a submit attempt is blocked:
default prevented, no simulated submission started, no success
notification, the generic error notification shown, the form not cleared,
and the first invalid field (which exists) focused. -/
theorem spec_C4_invalid_submit_blocked (f : ContactForm) (t : Bool)
    (h : allValid f = false) :
    (handleSubmit f t).prevented = true ∧
    (handleSubmit f t).submissionStarted = false ∧
    (∀ m ∈ (handleSubmit f t).notifications, m.2 ≠ "success") ∧
    ("Please correct the errors in the form.", "error")
      ∈ (handleSubmit f t).notifications ∧
    (handleSubmit f t).formCleared = false ∧
    (handleSubmit f t).focused = firstInvalid f ∧
    (firstInvalid f).isSome = true := by
  have hsome : (firstInvalid f).isSome = true := by
    unfold firstInvalid
    simp only [List.find?_isSome]
    unfold allValid at h
    by_contra hco
    push_neg at hco
    simp only [Bool.not_eq_true] at hco
    have hall : formFields.all (validateInput f) = true := by
      apply List.all_eq_true.mpr
      intro x hx
      have := hco x hx
      simpa using this
    rw [hall] at h
    cases h
  have hred : handleSubmit f t =
      { prevented := true
        submissionStarted := false
        notifications := [("Please correct the errors in the form.", "error")]
        formCleared := false
        buttonRestored := false
        focused := firstInvalid f } := by
    unfold handleSubmit
    rw [h]
    simp
  rw [hred]
  refine ⟨rfl, rfl, ?_, by simp, rfl, rfl, hsome⟩
  intro m hm
  simp only [List.mem_singleton] at hm
  subst hm
  decide

/-- Witness for C4 on the all-empty form. -/
theorem spec_C4_witness :
    allValid sampleEmptyForm = false ∧
    ((handleSubmit sampleEmptyForm false).prevented = true ∧
     (handleSubmit sampleEmptyForm false).submissionStarted = false ∧
     (∀ m ∈ (handleSubmit sampleEmptyForm false).notifications,
       m.2 ≠ "success") ∧
     ("Please correct the errors in the form.", "error")
       ∈ (handleSubmit sampleEmptyForm false).notifications ∧
     (handleSubmit sampleEmptyForm false).formCleared = false ∧
     (handleSubmit sampleEmptyForm false).focused
       = firstInvalid sampleEmptyForm ∧
     (firstInvalid sampleEmptyForm).isSome = true) :=
  ⟨by decide, spec_C4_invalid_submit_blocked sampleEmptyForm false (by decide)⟩

/-- C9: after a valid submit whose simulated operation throws, the failure
notification is shown, the button is restored, and the form is not
cleared; the success notification and the form reset are reachable only
on the non-throwing path. -/
theorem spec_C9_failure_path_keeps_form (f : ContactForm)
    (h : allValid f = true) :
    (handleSubmit f true).notifications
      = [("Failed to send message. Please try again.", "error")] ∧
    (handleSubmit f true).buttonRestored = true ∧
    (handleSubmit f true).formCleared = false ∧
    (∀ g t, ("Message sent successfully!", "success")
        ∈ (handleSubmit g t).notifications → t = false ∧ allValid g = true) ∧
    (∀ g t, (handleSubmit g t).formCleared = true →
      t = false ∧ allValid g = true) := by
  have hred : handleSubmit f true =
      { prevented := true
        submissionStarted := true
        notifications := [("Failed to send message. Please try again.", "error")]
        formCleared := false
        buttonRestored := true
        focused := none } := by
    unfold handleSubmit
    rw [h]
    simp
  refine ⟨by rw [hred], by rw [hred], by rw [hred], ?_, ?_⟩
  · intro g t hm
    unfold handleSubmit at hm
    by_cases hg : allValid g = true
    · by_cases ht : t = true
      · simp [hg, ht] at hm
      · exact ⟨by simpa using ht, hg⟩
    · simp [hg] at hm
  · intro g t hcl
    unfold handleSubmit at hcl
    by_cases hg : allValid g = true
    · by_cases ht : t = true
      · simp [hg, ht] at hcl
      · exact ⟨by simpa using ht, hg⟩
    · simp [hg] at hcl

/-- Witness for C9 on a fully valid form. -/
theorem spec_C9_witness :
    allValid sampleValidForm = true ∧
    ((handleSubmit sampleValidForm true).notifications
       = [("Failed to send message. Please try again.", "error")] ∧
     (handleSubmit sampleValidForm true).buttonRestored = true ∧
     (handleSubmit sampleValidForm true).formCleared = false ∧
     (∀ g t, ("Message sent successfully!", "success")
         ∈ (handleSubmit g t).notifications → t = false ∧ allValid g = true) ∧
     (∀ g t, (handleSubmit g t).formCleared = true →
       t = false ∧ allValid g = true)) :=
  ⟨by decide, spec_C9_failure_path_keeps_form sampleValidForm (by decide)⟩

end PortfolioHub
